import Mathlib

/-!
Verification development for the cached immutable-parameter resolution layer
of a multi-backend Ethereum 2 client (packages prysmgrpc and tekuhttp).
The Go sources are embedded shallowly: the upstream transport is passed in as
an explicit fetch outcome, Go contexts become an explicit record, and the
mutable cache slot of a service becomes explicit state passing.
-/

deriving instance DecidableEq for Except

/-- A Go context, reduced to the two observables the embedded code uses:
whether its cancellation signal has fired, and its deadline (in abstract
time units), if any. -/
structure Context where
  cancelled : Bool
  deadline : Option Nat
deriving DecidableEq, Repr

/-- Embedding of Go context.WithTimeout(parent, d): the child context carries
the parent cancellation signal, and its deadline is now + d capped by the
parent deadline when the parent has one. -/
def withTimeout (parent : Context) (now d : Nat) : Context :=
  { cancelled := parent.cancelled
    deadline := some (match parent.deadline with
      | none => now + d
      | some pd => min pd (now + d)) }

namespace prysmgrpc

/-- The value of a parsed hexadecimal digit, if the character is one. -/
def hexDigit? (c : Char) : Option Nat :=
  if '0' ≤ c ∧ c ≤ '9' then some (c.toNat - '0'.toNat)
  else if 'a' ≤ c ∧ c ≤ 'f' then some (c.toNat - 'a'.toNat + 10)
  else if 'A' ≤ c ∧ c ≤ 'F' then some (c.toNat - 'A'.toNat + 10)
  else none

/-- Decode a sequence of hexadecimal digits two at a time into bytes; an odd
number of digits or a non-hexadecimal character fails. -/
def hexBytes? : List Char → Option (List Nat)
  | [] => some []
  | [_] => none
  | c1 :: c2 :: rest =>
    match hexDigit? c1, hexDigit? c2, hexBytes? rest with
    | some hi, some lo, some bs => some ((16 * hi + lo) :: bs)
    | _, _, _ => none

/-- Drop a leading 0x marker from a character list, if present. -/
def dropHexMarker : List Char → List Char
  | '0' :: 'x' :: rest => rest
  | cs => cs

/-- Modelled from the spec: the function parseConfigByteArray is not under
src/ (only its caller RANDAODomain is). Per the spec, the Config Value
Parser decodes a hex-string configuration entry (for example 0x01000000)
into a byte array, and fails on malformed content such as an odd-length hex
string or an invalid encoding. Bytes are Nat values below 256. -/
def parseConfigByteArray (val : String) : Except String (List Nat) :=
  match hexBytes? (dropHexMarker val.data) with
  | some bs => Except.ok bs
  | none => Except.error "invalid byte array value"

/-- Errors surfaced by RANDAODomain, one constructor per error site in the
source, each carrying what the corresponding Go error message carries. -/
inductive FetchError
  | upstream (cause : String)
  | missingKey (key : String)
  | parseFailure (key : String) (val : String) (cause : String)
deriving DecidableEq, Repr

/-- The Go error string each FetchError renders to (pkg/errors wraps as
message, colon, cause). -/
def FetchError.message : FetchError → String
  | .upstream cause => "failed to obtain configuration: " ++ cause
  | .missingKey _ => "config did not provide DomainRandao value"
  | .parseFailure key val cause =>
      "failed to convert value \"" ++ val ++ "\" for " ++ key ++ ": " ++ cause

/-- The prysmgrpc service state the embedded method touches: the configured
per-call timeout and the RANDAO domain cache slot (nil pointer = Empty). -/
structure Service where
  timeout : Nat
  randaoDomain : Option (List Nat)
deriving DecidableEq, Repr

/-- Go copy(domainType[:], tmp) into a zero-initialised 4-byte array: byte i
of the result is byte i of tmp when i is below the length of tmp, else 0; at
most 4 bytes are copied. -/
def domainTypeOfBytes (tmp : List Nat) : List Nat :=
  [tmp.getD 0 0, tmp.getD 1 0, tmp.getD 2 0, tmp.getD 3 0]

/-- Lines 36-46 of the source: look up DomainRandao in the fetched config
map, parse it, and build the domain type. -/
def resolveRandaoValue (config : List (String × String)) :
    Except FetchError (List Nat) :=
  match config.lookup "DomainRandao" with
  | none => Except.error (.missingKey "DomainRandao")
  | some val =>
    match parseConfigByteArray val with
    | Except.error e => Except.error (.parseFailure "DomainRandao" val e)
    | Except.ok tmp => Except.ok (domainTypeOfBytes tmp)

/-- The observable outcome of one RANDAODomain call: its return value, the
service state after the call, and the contexts of the upstream requests it
issued (the call-counting stub transport of the spec observes their number). -/
structure RandaoOutcome where
  result : Except FetchError (List Nat)
  service : Service
  upstreamCalls : List Context
deriving DecidableEq, Repr

/-- Embedding of Service.RANDAODomain. The upstream GetBeaconConfig response
is passed in as getBeaconConfig (a transport failure or a config map); ctx is
the caller-supplied context and now the current abstract time, used to form
the per-call timeout context exactly as lines 29-31 do. -/
def RANDAODomain (ctx : Context) (now : Nat) (s : Service)
    (getBeaconConfig : Except String (List (String × String))) : RandaoOutcome :=
  match s.randaoDomain with
  | some d => ⟨Except.ok d, s, []⟩
  | none =>
    let opCtx := withTimeout ctx now s.timeout
    match getBeaconConfig with
    | Except.error e => ⟨Except.error (.upstream e), s, [opCtx]⟩
    | Except.ok config =>
      match resolveRandaoValue config with
      | Except.error e => ⟨Except.error e, s, [opCtx]⟩
      | Except.ok domainType =>
        ⟨Except.ok domainType, { s with randaoDomain := some domainType }, [opCtx]⟩

/-- Phase of one interleaved caller of RANDAODomain: about to run the nil
test of line 27, past the upstream fetch of lines 28-31, or returned. -/
inductive CallerPhase
  | ready
  | fetched
  | done (res : Except FetchError (List Nat))
deriving DecidableEq, Repr

/-- Shared state of n interleaved RANDAODomain calls on one service instance:
the cache slot, the number of upstream fetches issued so far, and the phase
of each caller. -/
structure ConcState where
  slot : Option (List Nat)
  fetchCount : Nat
  callers : List CallerPhase
deriving DecidableEq, Repr

/-- One atomic step of caller i, at the interleaving granularity the unlocked
source permits: the nil test of line 27 and the fetch of lines 28-31 are
separate steps, so several callers can pass the nil test before any of them
writes the slot. The upstream response is the fixed config map, since the
chain configuration is constant. The slot is written only on full success,
as on line 46. -/
def step (config : List (String × String)) (st : ConcState) (i : Nat) : ConcState :=
  match st.callers.get? i with
  | none => st
  | some (.done _) => st
  | some .ready =>
    match st.slot with
    | some d => { st with callers := st.callers.set i (.done (Except.ok d)) }
    | none =>
      { st with callers := st.callers.set i .fetched, fetchCount := st.fetchCount + 1 }
  | some .fetched =>
    match resolveRandaoValue config with
    | Except.error e => { st with callers := st.callers.set i (.done (Except.error e)) }
    | Except.ok v =>
      { st with slot := some v, callers := st.callers.set i (.done (Except.ok v)) }

/-- Run an interleaving schedule of caller indices from a given state. -/
def run (config : List (String × String)) (st : ConcState) : List Nat → ConcState
  | [] => st
  | i :: rest => run config (step config st i) rest

/-- The initial state for n concurrent callers on a fresh service instance. -/
def initState (n : Nat) : ConcState := ⟨none, 0, List.replicate n .ready⟩

/-- The number of callers still in the ready phase. -/
def readyCount : List CallerPhase → Nat
  | [] => 0
  | p :: t => (if p = .ready then 1 else 0) + readyCount t

/-- The invariant tying the concurrent states to the resolved value v: the
slot is empty or holds v, every returned caller returned v, and the fetches
issued so far are bounded by the callers that left the ready phase. -/
def Inv (v : List Nat) (st : ConcState) : Prop :=
  (st.slot = none ∨ st.slot = some v) ∧
  (∀ r, CallerPhase.done r ∈ st.callers → r = Except.ok v) ∧
  st.fetchCount + readyCount st.callers ≤ st.callers.length

end prysmgrpc

namespace tekuhttp

/-- The tekuhttp service state the embedded functions touch: the base URL
string, the configured address, the timeout, the genesis time cache slot and
the registered beacon-chain-head-updated handlers (registration entries,
identified by number; the service does not own the callback closures). -/
structure Service where
  base : String
  address : String
  timeout : Nat
  genesisTime : Option Nat
  beaconChainHeadUpdatedHandlers : List Nat
deriving DecidableEq, Repr

/-- Modelled from the spec: Service.GenesisTime is not under src/ (only its
caller fetchStaticValues is). Per the Lazy Cached Fetcher contract of the
spec it returns the cached genesis time when its slot is populated, and
otherwise issues one upstream fetch, caching the value on success only. -/
def GenesisTime (s : Service) (fetch : Except String Nat) :
    Except String (Nat × Service) :=
  match s.genesisTime with
  | some t => Except.ok (t, s)
  | none =>
    match fetch with
    | Except.error e => Except.error e
    | Except.ok t => Except.ok (t, { s with genesisTime := some t })

/-- Embedding of Service.fetchStaticValues: fetch the genesis time (the only
active probe; the other prefetches are commented out in the source) and wrap
a failure. -/
def fetchStaticValues (s : Service) (genesisFetch : Except String Nat) :
    Except String Service :=
  match GenesisTime s genesisFetch with
  | Except.error e => Except.error ("failed to fetch genesis time: " ++ e)
  | Except.ok (_, s2) => Except.ok s2

/-- Go strings.HasPrefix(address, http): the first four characters of the
address are h, t, t, p. -/
def hasHTTPScheme (address : String) : Bool :=
  match address.data with
  | 'h' :: 't' :: 't' :: 'p' :: _ => true
  | _ => false

/-- Lines 172-175 of the source: prepend the http scheme when the address
does not already start with http. -/
def baseAddress (address : String) : String :=
  if hasHTTPScheme address then address else "http://" ++ address

/-- Embedding of tekuhttp.New. Parameter validation and url.Parse are
external collaborators; the upstream genesis-time response consumed by the
reachability probe is passed in as genesisFetch. A construction failure
returns an error and no service value leaks. -/
def New (address : String) (timeout : Nat) (genesisFetch : Except String Nat) :
    Except String Service :=
  let s : Service :=
    { base := baseAddress address
      address := address
      timeout := timeout
      genesisTime := none
      beaconChainHeadUpdatedHandlers := [] }
  match fetchStaticValues s genesisFetch with
  | Except.error e => Except.error ("failed to confirm node connection: " ++ e)
  | Except.ok s2 => Except.ok s2

/-- Embedding of Service.Name. -/
def Name (_s : Service) : String := "Teku (HTTP)"

/-- Embedding of Service.Address. -/
def Address (s : Service) : String := s.address

/-- Embedding of Service.close: replace the handler collection with an empty
one (taken and released under the write lock in the source). -/
def close (s : Service) : Service :=
  { s with beaconChainHeadUpdatedHandlers := [] }

end tekuhttp

namespace prysmgrpc

theorem mem_of_mem_set {x b : CallerPhase} :
    ∀ (l : List CallerPhase) (i : Nat), x ∈ l.set i b → x ∈ l ∨ x = b
  | [], _, h => by simp at h
  | a :: t, 0, h => by
    rcases List.mem_cons.mp h with h1 | h1
    · exact Or.inr h1
    · exact Or.inl (List.mem_cons_of_mem a h1)
  | a :: t, j + 1, h => by
    rcases List.mem_cons.mp h with h1 | h1
    · exact Or.inl (h1 ▸ List.mem_cons_self a t)
    · rcases mem_of_mem_set t j h1 with h2 | h2
      · exact Or.inl (List.mem_cons_of_mem a h2)
      · exact Or.inr h2

theorem readyCount_set_of_ready (b : CallerPhase) (hb : b ≠ .ready) :
    ∀ (l : List CallerPhase) (i : Nat), l.get? i = some .ready →
      readyCount (l.set i b) + 1 = readyCount l
  | [], i, h => by simp at h
  | a :: t, 0, h => by
    have ha : a = .ready := by simpa using h
    subst ha
    simp [List.set, readyCount, hb]
    omega
  | a :: t, j + 1, h => by
    have h2 : t.get? j = some .ready := by simpa using h
    have ih := readyCount_set_of_ready b hb t j h2
    simp only [List.set, readyCount]
    omega

theorem readyCount_set_of_not_ready (b b' : CallerPhase) (hb : b ≠ .ready)
    (hb' : b' ≠ .ready) :
    ∀ (l : List CallerPhase) (i : Nat), l.get? i = some b' →
      readyCount (l.set i b) = readyCount l
  | [], i, h => by simp at h
  | a :: t, 0, h => by
    have ha : a = b' := by simpa using h
    subst ha
    simp [List.set, readyCount, hb, hb']
  | a :: t, j + 1, h => by
    have h2 : t.get? j = some b' := by simpa using h
    have ih := readyCount_set_of_not_ready b b' hb hb' t j h2
    simp only [List.set, readyCount]
    omega

theorem readyCount_replicate : ∀ n : Nat, readyCount (List.replicate n .ready) = n
  | 0 => rfl
  | n + 1 => by
    simp [List.replicate, readyCount, readyCount_replicate n]
    omega

theorem Inv_step {config : List (String × String)} {v : List Nat}
    (hres : resolveRandaoValue config = Except.ok v)
    {st : ConcState} (h : Inv v st) (i : Nat) : Inv v (step config st i) := by
  obtain ⟨hslot, hdone, hcount⟩ := h
  unfold step
  split
  · exact ⟨hslot, hdone, hcount⟩
  · exact ⟨hslot, hdone, hcount⟩
  · next heq =>
    split
    · next d heqs =>
      have hdv : d = v := by
        rcases hslot with h0 | h0
        · rw [h0] at heqs; cases heqs
        · rw [h0] at heqs; injection heqs with h1; exact h1.symm
      subst hdv
      refine ⟨hslot, ?_, ?_⟩
      · intro r hr
        rcases mem_of_mem_set _ _ hr with hm | hm
        · exact hdone r hm
        · simpa using hm
      · have hdec := readyCount_set_of_ready (.done (Except.ok d))
          (by simp) st.callers i heq
        simp only [List.length_set]
        omega
    · next heqs =>
      refine ⟨hslot, ?_, ?_⟩
      · intro r hr
        rcases mem_of_mem_set _ _ hr with hm | hm
        · exact hdone r hm
        · cases hm
      · have hdec := readyCount_set_of_ready .fetched
          (by simp) st.callers i heq
        simp only [List.length_set]
        omega
  · next heq =>
    split
    · next e heqr =>
      rw [hres] at heqr
      cases heqr
    · next v2 heqr =>
      have hv2 : v2 = v := by
        rw [hres] at heqr
        injection heqr with h1
        exact h1.symm
      subst hv2
      refine ⟨Or.inr rfl, ?_, ?_⟩
      · intro r hr
        rcases mem_of_mem_set _ _ hr with hm | hm
        · exact hdone r hm
        · simpa using hm
      · have hpres := readyCount_set_of_not_ready (.done (Except.ok v2))
          .fetched (by simp) (by simp) st.callers i heq
        simp only [List.length_set]
        omega

theorem Inv_run {config : List (String × String)} {v : List Nat}
    (hres : resolveRandaoValue config = Except.ok v) :
    ∀ (sched : List Nat) {st : ConcState}, Inv v st → Inv v (run config st sched)
  | [], _, h => h
  | i :: rest, _st, h => Inv_run hres rest (Inv_step hres h i)

theorem callers_length_step (config : List (String × String)) (st : ConcState)
    (i : Nat) : (step config st i).callers.length = st.callers.length := by
  unfold step
  split
  · rfl
  · rfl
  · split <;> simp [List.length_set]
  · split <;> simp [List.length_set]

theorem callers_length_run (config : List (String × String)) :
    ∀ (sched : List Nat) (st : ConcState),
      (run config st sched).callers.length = st.callers.length
  | [], _ => rfl
  | i :: rest, st => by
    show (run config (step config st i) rest).callers.length = _
    rw [callers_length_run config rest (step config st i), callers_length_step]

end prysmgrpc

/-- Claim C2: for every service whose RANDAO-domain cache slot is populated,
RANDAODomain performs no upstream request and returns the cached value with
the state unchanged; concretely, with upstream config map DomainRandao =
0x01000000 the first call returns [1, 0, 0, 0] issuing one upstream request,
and a second call returns the identical array with no upstream request even
when the transport now fails. -/
theorem randao_cached_hit_no_upstream :
    (∀ (ctx : Context) (now : Nat) (s : prysmgrpc.Service) (d : List Nat)
        (fetch : Except String (List (String × String))),
        s.randaoDomain = some d →
        prysmgrpc.RANDAODomain ctx now s fetch = ⟨Except.ok d, s, []⟩) ∧
    ((prysmgrpc.RANDAODomain ⟨false, none⟩ 0 ⟨5, none⟩
        (Except.ok [("DomainRandao", "0x01000000")])).result = Except.ok [1, 0, 0, 0] ∧
      (prysmgrpc.RANDAODomain ⟨false, none⟩ 0 ⟨5, none⟩
        (Except.ok [("DomainRandao", "0x01000000")])).upstreamCalls.length = 1 ∧
      prysmgrpc.RANDAODomain ⟨false, none⟩ 1
        (prysmgrpc.RANDAODomain ⟨false, none⟩ 0 ⟨5, none⟩
          (Except.ok [("DomainRandao", "0x01000000")])).service
        (Except.error "transport down") =
        ⟨Except.ok [1, 0, 0, 0],
          (prysmgrpc.RANDAODomain ⟨false, none⟩ 0 ⟨5, none⟩
            (Except.ok [("DomainRandao", "0x01000000")])).service, []⟩) := by
  constructor
  · intro ctx now s d fetch hcache
    unfold prysmgrpc.RANDAODomain
    rw [hcache]
  · exact ⟨by decide, by decide, by decide⟩

/-- Witness for C2 at a concrete populated service: the cached value [9, 9,
9, 9] is returned with no upstream call even though the transport fails. -/
theorem randao_cached_hit_no_upstream_witness :
    prysmgrpc.RANDAODomain ⟨false, none⟩ 3 ⟨7, some [9, 9, 9, 9]⟩
      (Except.error "down") = ⟨Except.ok [9, 9, 9, 9], ⟨7, some [9, 9, 9, 9]⟩, []⟩ :=
  randao_cached_hit_no_upstream.1 ⟨false, none⟩ 3 ⟨7, some [9, 9, 9, 9]⟩
    [9, 9, 9, 9] (Except.error "down") rfl

/-- Claim C3: on an empty slot, a transport failure returns an error wrapping
the transport error and leaves the slot Empty, and a parse failure returns an
error naming the offending value and likewise leaves the slot Empty; the
state after either failure is unchanged, so a future call retries the
fetch. -/
theorem randao_failure_leaves_slot_empty :
    (∀ (ctx : Context) (now timeout : Nat) (e : String),
        prysmgrpc.RANDAODomain ctx now ⟨timeout, none⟩ (Except.error e) =
          ⟨Except.error (.upstream e), ⟨timeout, none⟩, [withTimeout ctx now timeout]⟩ ∧
        (prysmgrpc.FetchError.upstream e).message =
          "failed to obtain configuration: " ++ e) ∧
    (∀ (ctx : Context) (now timeout : Nat) (config : List (String × String))
        (val e : String),
        config.lookup "DomainRandao" = some val →
        prysmgrpc.parseConfigByteArray val = Except.error e →
        prysmgrpc.RANDAODomain ctx now ⟨timeout, none⟩ (Except.ok config) =
          ⟨Except.error (.parseFailure "DomainRandao" val e), ⟨timeout, none⟩,
            [withTimeout ctx now timeout]⟩) := by
  constructor
  · intro ctx now timeout e
    exact ⟨rfl, rfl⟩
  · intro ctx now timeout config val e hlook hparse
    simp [prysmgrpc.RANDAODomain, prysmgrpc.resolveRandaoValue, hlook, hparse]

/-- Witness for C3: a concrete transport failure and a concrete odd-length
hex value both fail and leave the slot Empty. -/
theorem randao_failure_leaves_slot_empty_witness :
    (prysmgrpc.RANDAODomain ⟨false, none⟩ 0 ⟨5, none⟩
        (Except.error "connection refused") =
        ⟨Except.error (.upstream "connection refused"), ⟨5, none⟩, [⟨false, some 5⟩]⟩ ∧
      (prysmgrpc.FetchError.upstream "connection refused").message =
        "failed to obtain configuration: connection refused") ∧
    prysmgrpc.RANDAODomain ⟨false, none⟩ 0 ⟨5, none⟩
      (Except.ok [("DomainRandao", "0x010")]) =
      ⟨Except.error (.parseFailure "DomainRandao" "0x010" "invalid byte array value"),
        ⟨5, none⟩, [⟨false, some 5⟩]⟩ :=
  ⟨randao_failure_leaves_slot_empty.1 ⟨false, none⟩ 0 5 "connection refused",
    randao_failure_leaves_slot_empty.2 ⟨false, none⟩ 0 5
      [("DomainRandao", "0x010")] "0x010" "invalid byte array value"
      (by decide) (by decide)⟩

/-- Claim C4: a config map lacking the DomainRandao key yields the
missing-key error, a config map whose value fails to parse yields the
parse-failure error carrying the key and the offending value, and the two
errors are distinguishable; neither case is silently defaulted. -/
theorem randao_missing_key_distinct_from_parse_failure :
    (∀ (ctx : Context) (now timeout : Nat) (config : List (String × String)),
        config.lookup "DomainRandao" = none →
        prysmgrpc.RANDAODomain ctx now ⟨timeout, none⟩ (Except.ok config) =
          ⟨Except.error (.missingKey "DomainRandao"), ⟨timeout, none⟩,
            [withTimeout ctx now timeout]⟩) ∧
    (∀ (ctx : Context) (now timeout : Nat) (config : List (String × String))
        (val e : String),
        config.lookup "DomainRandao" = some val →
        prysmgrpc.parseConfigByteArray val = Except.error e →
        (prysmgrpc.RANDAODomain ctx now ⟨timeout, none⟩ (Except.ok config)).result =
          Except.error (.parseFailure "DomainRandao" val e)) ∧
    (∀ key val e : String,
        prysmgrpc.FetchError.missingKey key ≠ .parseFailure key val e) := by
  refine ⟨?_, ?_, ?_⟩
  · intro ctx now timeout config hlook
    simp [prysmgrpc.RANDAODomain, prysmgrpc.resolveRandaoValue, hlook]
  · intro ctx now timeout config val e hlook hparse
    simp [prysmgrpc.RANDAODomain, prysmgrpc.resolveRandaoValue, hlook, hparse]
  · intro key val e h
    simp at h

/-- Witness for C4: the key DomainRandao absent from the map gives the
missing-key error, the odd-length value 0x010 gives the parse-failure error,
and the two errors differ. -/
theorem randao_missing_key_distinct_from_parse_failure_witness :
    prysmgrpc.RANDAODomain ⟨false, none⟩ 0 ⟨5, none⟩
      (Except.ok [("DomainDeposit", "0x03000000")]) =
      ⟨Except.error (.missingKey "DomainRandao"), ⟨5, none⟩, [⟨false, some 5⟩]⟩ ∧
    (prysmgrpc.RANDAODomain ⟨false, none⟩ 0 ⟨5, none⟩
      (Except.ok [("DomainRandao", "0x010")])).result =
      Except.error (.parseFailure "DomainRandao" "0x010" "invalid byte array value") ∧
    prysmgrpc.FetchError.missingKey "DomainRandao" ≠
      .parseFailure "DomainRandao" "0x010" "invalid byte array value" :=
  ⟨randao_missing_key_distinct_from_parse_failure.1 ⟨false, none⟩ 0 5
      [("DomainDeposit", "0x03000000")] (by decide),
    randao_missing_key_distinct_from_parse_failure.2.1 ⟨false, none⟩ 0 5
      [("DomainRandao", "0x010")] "0x010" "invalid byte array value"
      (by decide) (by decide),
    randao_missing_key_distinct_from_parse_failure.2.2 "DomainRandao" "0x010"
      "invalid byte array value"⟩

/-- Claim C5: tekuhttp.New performs the synchronous genesis-time probe before
returning successfully: a failing probe makes the constructor return the
connection error and no service value, and every successfully returned
service has a successful probe behind it (its genesis-time slot holds the
probed value). -/
theorem new_requires_successful_probe :
    (∀ (address : String) (timeout : Nat) (e : String),
        tekuhttp.New address timeout (Except.error e) =
          Except.error
            ("failed to confirm node connection: failed to fetch genesis time: " ++ e)) ∧
    (∀ (address : String) (timeout : Nat) (gfetch : Except String Nat)
        (s : tekuhttp.Service),
        tekuhttp.New address timeout gfetch = Except.ok s →
        ∃ t, gfetch = Except.ok t ∧ s.genesisTime = some t) := by
  constructor
  · intro address timeout e
    rfl
  · intro address timeout gfetch s hok
    cases gfetch with
    | error e =>
      simp [tekuhttp.New, tekuhttp.fetchStaticValues, tekuhttp.GenesisTime] at hok
    | ok t =>
      refine ⟨t, rfl, ?_⟩
      simp [tekuhttp.New, tekuhttp.fetchStaticValues, tekuhttp.GenesisTime] at hok
      rw [← hok]

/-- Witness for C5: constructing against a refused connection fails with the
wrapped connection error, and a successful construction holds the probed
genesis time. -/
theorem new_requires_successful_probe_witness :
    tekuhttp.New "localhost:5051" 2 (Except.error "connection refused") =
      Except.error
        ("failed to confirm node connection: failed to fetch genesis time: connection refused") ∧
    ∃ t, (Except.ok 7 : Except String Nat) = Except.ok t ∧
      (⟨"http://localhost:5051", "localhost:5051", 2, some 7, []⟩ :
        tekuhttp.Service).genesisTime = some t :=
  ⟨new_requires_successful_probe.1 "localhost:5051" 2 "connection refused",
    new_requires_successful_probe.2 "localhost:5051" 2 (Except.ok 7)
      ⟨"http://localhost:5051", "localhost:5051", 2, some 7, []⟩ (by decide)⟩

/-- Claim C7: close replaces the handler collection with the empty collection
and is idempotent: iterating close any positive number of times equals one
close, which leaves zero registered handlers. -/
theorem close_clears_handlers_and_idempotent :
    (∀ s : tekuhttp.Service, (tekuhttp.close s).beaconChainHeadUpdatedHandlers = []) ∧
    (∀ (s : tekuhttp.Service) (n : Nat), 1 ≤ n →
        tekuhttp.close^[n] s = tekuhttp.close s) := by
  constructor
  · intro s
    rfl
  · intro s n hn
    induction n with
    | zero => omega
    | succ k ih =>
      cases Nat.eq_zero_or_pos k with
      | inl h0 =>
        subst h0
        simp
      | inr hpos =>
        rw [Function.iterate_succ_apply', ih hpos]
        rfl

/-- Witness for C7: three consecutive closes on a service with two registered
handlers equal a single close, which empties the handler collection. -/
theorem close_clears_handlers_and_idempotent_witness :
    (tekuhttp.close ⟨"http://a", "a", 1, none, [1, 2]⟩).beaconChainHeadUpdatedHandlers
      = [] ∧
    (1 ≤ 3 ∧ tekuhttp.close^[3] ⟨"http://a", "a", 1, none, [1, 2]⟩ =
      tekuhttp.close ⟨"http://a", "a", 1, none, [1, 2]⟩) :=
  ⟨close_clears_handlers_and_idempotent.1 ⟨"http://a", "a", 1, none, [1, 2]⟩,
    by decide,
    close_clears_handlers_and_idempotent.2 ⟨"http://a", "a", 1, none, [1, 2]⟩ 3
      (by decide)⟩

/-- Claim C8: Name is the fixed static identifier of the backend and Address
is the configured upstream address; both are pure functions of the service
value, and a service built by New reports exactly the address the caller
supplied. -/
theorem name_address_static_accessors :
    (∀ s : tekuhttp.Service, tekuhttp.Name s = "Teku (HTTP)") ∧
    (∀ s : tekuhttp.Service, tekuhttp.Address s = s.address) ∧
    (∀ (address : String) (timeout : Nat) (gfetch : Except String Nat)
        (s : tekuhttp.Service),
        tekuhttp.New address timeout gfetch = Except.ok s →
        tekuhttp.Address s = address) := by
  refine ⟨fun s => rfl, fun s => rfl, ?_⟩
  intro address timeout gfetch s hok
  cases gfetch with
  | error e =>
    simp [tekuhttp.New, tekuhttp.fetchStaticValues, tekuhttp.GenesisTime] at hok
  | ok t =>
    simp [tekuhttp.New, tekuhttp.fetchStaticValues, tekuhttp.GenesisTime] at hok
    rw [← hok]
    rfl

/-- Witness for C8 at a concretely constructed service. -/
theorem name_address_static_accessors_witness :
    tekuhttp.Name ⟨"http://localhost:5051", "localhost:5051", 2, some 7, []⟩ =
      "Teku (HTTP)" ∧
    tekuhttp.Address ⟨"http://localhost:5051", "localhost:5051", 2, some 7, []⟩ =
      "localhost:5051" :=
  ⟨name_address_static_accessors.1 ⟨"http://localhost:5051", "localhost:5051", 2, some 7, []⟩,
    name_address_static_accessors.2.2 "localhost:5051" 2 (Except.ok 7)
      ⟨"http://localhost:5051", "localhost:5051", 2, some 7, []⟩ (by decide)⟩

/-- Claim C9: when the supplied address does not start with http, New stores
the base URL with http:// prepended while Address still reports the original
address unchanged. -/
theorem scheme_prepended_base_address_unchanged
    (address : String) (timeout : Nat) (gfetch : Except String Nat)
    (s : tekuhttp.Service)
    (hpre : tekuhttp.hasHTTPScheme address = false)
    (hok : tekuhttp.New address timeout gfetch = Except.ok s) :
    s.base = "http://" ++ address ∧ tekuhttp.Address s = address := by
  cases gfetch with
  | error e =>
    simp [tekuhttp.New, tekuhttp.fetchStaticValues, tekuhttp.GenesisTime] at hok
  | ok t =>
    simp [tekuhttp.New, tekuhttp.fetchStaticValues, tekuhttp.GenesisTime] at hok
    rw [← hok]
    exact ⟨by simp [tekuhttp.baseAddress, hpre], rfl⟩

/-- Witness for C9: the address localhost:5051 gains the scheme in the base
URL and is reported unchanged by Address. -/
theorem scheme_prepended_base_address_unchanged_witness :
    tekuhttp.hasHTTPScheme "localhost:5051" = false ∧
    tekuhttp.New "localhost:5051" 2 (Except.ok 7) =
      Except.ok ⟨"http://localhost:5051", "localhost:5051", 2, some 7, []⟩ ∧
    ((⟨"http://localhost:5051", "localhost:5051", 2, some 7, []⟩ :
        tekuhttp.Service).base = "http://" ++ "localhost:5051" ∧
      tekuhttp.Address ⟨"http://localhost:5051", "localhost:5051", 2, some 7, []⟩ =
        "localhost:5051") :=
  ⟨by decide, by decide,
    scheme_prepended_base_address_unchanged "localhost:5051" 2 (Except.ok 7)
      ⟨"http://localhost:5051", "localhost:5051", 2, some 7, []⟩
      (by decide) (by decide)⟩

/-- Claim C10: whenever parseConfigByteArray succeeds, RANDAODomain returns
the 4-byte copy of the decoded value without error, whatever its length: the
result always has length 4, shorter values are zero-padded and longer ones
are truncated (byte i of the result is byte i of the decoded value when that
exists and 0 otherwise). -/
theorem randao_domain_copy_pads_and_truncates
    (ctx : Context) (now timeout : Nat) (config : List (String × String))
    (val : String) (tmp : List Nat)
    (hlook : config.lookup "DomainRandao" = some val)
    (hparse : prysmgrpc.parseConfigByteArray val = Except.ok tmp) :
    (prysmgrpc.RANDAODomain ctx now ⟨timeout, none⟩ (Except.ok config)).result =
      Except.ok (prysmgrpc.domainTypeOfBytes tmp) ∧
    (prysmgrpc.domainTypeOfBytes tmp).length = 4 ∧
    (∀ i : Nat, i < 4 →
      (prysmgrpc.domainTypeOfBytes tmp).getD i 0 = tmp.getD i 0) := by
  refine ⟨?_, rfl, ?_⟩
  · simp [prysmgrpc.RANDAODomain, prysmgrpc.resolveRandaoValue, hlook, hparse]
  · intro i hi
    match i, hi with
    | 0, _ => rfl
    | 1, _ => rfl
    | 2, _ => rfl
    | 3, _ => rfl
    | n + 4, h => exact absurd h (by omega)

/-- Witness for C10 at the five-byte value 0x0102030405: the result is the
truncated [1, 2, 3, 4] and no error is raised. -/
theorem randao_domain_copy_pads_and_truncates_witness :
    (prysmgrpc.RANDAODomain ⟨false, none⟩ 0 ⟨5, none⟩
        (Except.ok [("DomainRandao", "0x0102030405")])).result =
      Except.ok (prysmgrpc.domainTypeOfBytes [1, 2, 3, 4, 5]) ∧
    (prysmgrpc.domainTypeOfBytes [1, 2, 3, 4, 5]).length = 4 ∧
    (∀ i : Nat, i < 4 →
      (prysmgrpc.domainTypeOfBytes [1, 2, 3, 4, 5]).getD i 0 =
        [1, 2, 3, 4, 5].getD i 0) :=
  randao_domain_copy_pads_and_truncates ⟨false, none⟩ 0 5
    [("DomainRandao", "0x0102030405")] "0x0102030405" [1, 2, 3, 4, 5]
    (by decide) (by decide)

/-- Counterexample to claim C1 as stated: with the upstream config map
DomainRandao = 0x01000000 and two callers interleaved as caller 0 nil-test,
caller 1 nil-test, caller 0 fetch, caller 1 fetch, the unlocked source issues
two upstream fetches for the one parameter, so at-most-one-fetch fails under
concurrency. -/
theorem randao_concurrent_single_fetch_counterexample :
    ¬ (prysmgrpc.run [("DomainRandao", "0x01000000")] (prysmgrpc.initState 2)
        [0, 1, 0, 1]).fetchCount ≤ 1 := by decide

/-- Claim C1 (amended): under any interleaving of n concurrent RANDAODomain
callers on a fresh service, each caller issues at most one upstream fetch (so
at most n fetches in total, not one), and when the fixed upstream
configuration resolves successfully every caller that has returned observed
the identical value. -/
theorem randao_concurrent_fetch_bound_and_agreement
    (config : List (String × String)) (v : List Nat) (n : Nat)
    (schedule : List Nat)
    (hres : prysmgrpc.resolveRandaoValue config = Except.ok v) :
    (prysmgrpc.run config (prysmgrpc.initState n) schedule).fetchCount ≤ n ∧
    ∀ r, prysmgrpc.CallerPhase.done r ∈
        (prysmgrpc.run config (prysmgrpc.initState n) schedule).callers →
      r = Except.ok v := by
  have hinit : prysmgrpc.Inv v (prysmgrpc.initState n) := by
    refine ⟨Or.inl rfl, ?_, ?_⟩
    · intro r hr
      exact prysmgrpc.CallerPhase.noConfusion (List.eq_of_mem_replicate hr)
    · simp [prysmgrpc.initState, prysmgrpc.readyCount_replicate]
  obtain ⟨hslot, hdone, hcount⟩ := prysmgrpc.Inv_run hres schedule hinit
  have hlen : (prysmgrpc.run config (prysmgrpc.initState n) schedule).callers.length
      = n := by
    rw [prysmgrpc.callers_length_run]
    simp [prysmgrpc.initState]
  refine ⟨?_, hdone⟩
  omega

/-- Witness for amended C1: config DomainRandao = 0x01000000, two callers,
the racing schedule of the counterexample: at most two fetches and every
returned caller saw [1, 0, 0, 0]. -/
theorem randao_concurrent_fetch_bound_and_agreement_witness :
    prysmgrpc.resolveRandaoValue [("DomainRandao", "0x01000000")] =
      Except.ok [1, 0, 0, 0] ∧
    ((prysmgrpc.run [("DomainRandao", "0x01000000")] (prysmgrpc.initState 2)
        [0, 1, 0, 1]).fetchCount ≤ 2 ∧
      ∀ r, prysmgrpc.CallerPhase.done r ∈
          (prysmgrpc.run [("DomainRandao", "0x01000000")] (prysmgrpc.initState 2)
            [0, 1, 0, 1]).callers →
        r = Except.ok [1, 0, 0, 0]) :=
  ⟨by decide,
    randao_concurrent_fetch_bound_and_agreement [("DomainRandao", "0x01000000")]
      [1, 0, 0, 0] 2 [0, 1, 0, 1] (by decide)⟩

/-- Counterexample to claim C6 as stated: the per-call context handed to the
upstream fetch is not independent of the caller-supplied cancellation signal,
and the caller context drives more than the shutdown path: two identical
slot-miss calls differing only in the caller cancellation signal issue
upstream requests whose contexts differ exactly in that signal. -/
theorem randao_timeout_not_independent_counterexample :
    (prysmgrpc.RANDAODomain ⟨true, none⟩ 0 ⟨5, none⟩
        (Except.error "transport down")).upstreamCalls = [⟨true, some 5⟩] ∧
    (prysmgrpc.RANDAODomain ⟨false, none⟩ 0 ⟨5, none⟩
        (Except.error "transport down")).upstreamCalls = [⟨false, some 5⟩] := by
  decide

/-- Claim C6 (amended): every upstream fetch issued on a slot miss is bounded
by a per-call timeout equal to the configured service timeout (its context
deadline is at most now plus the timeout), and that context is derived from
the caller-supplied context, inheriting its cancellation signal rather than
being independent of it. -/
theorem randao_upstream_timeout_bound (ctx : Context) (now timeout : Nat)
    (fetch : Except String (List (String × String))) :
    (prysmgrpc.RANDAODomain ctx now ⟨timeout, none⟩ fetch).upstreamCalls =
      [withTimeout ctx now timeout] ∧
    (∃ d : Nat, (withTimeout ctx now timeout).deadline = some d ∧
      d ≤ now + timeout) ∧
    (withTimeout ctx now timeout).cancelled = ctx.cancelled := by
  refine ⟨?_, ?_, rfl⟩
  · cases fetch with
    | error e => rfl
    | ok config =>
      simp only [prysmgrpc.RANDAODomain]
      cases prysmgrpc.resolveRandaoValue config with
      | error e => rfl
      | ok v => rfl
  · cases hd : ctx.deadline with
    | none => exact ⟨now + timeout, by simp [withTimeout, hd], le_refl _⟩
    | some pd =>
      exact ⟨min pd (now + timeout), by simp [withTimeout, hd], min_le_right _ _⟩
